import Mathlib

/-!
Verification development for the HA-Unifi-Speedtest integration.

The Python source (custom_components/ha_unifi_speedtest/api.py and sensor.py) is
shallowly embedded below:

* JSON payloads become the inductive `Json`; machine floats become `ℚ`
  (the source only moves measurement values around, never does float-specific
  arithmetic); wall-clock time becomes an explicit `ℚ`-valued clock threaded
  through the request engine, with `time.sleep` advancing it.
* Fallible code (HTTP requests, `response.json()`, the dialect login calls)
  is represented with `Except`; the backend is an oracle
  `fetch : String → Except Unit Json` mapping an endpoint path to its
  response, an `.error` standing for any raised exception (HTTP error,
  network failure, malformed payload).
* Python dicts used as ordered key-value stores become association lists with
  insertion-order-preserving update (`updateAssoc`); Python's stable
  `list.sort(key=...)` becomes `List.insertionSort` with the corresponding
  total preorder (stable sorting by a key is a unique function, so any stable
  algorithm is extensionally the source's Timsort).
-/

namespace HAUnifiSpeedtest

/-- JSON values as delivered by `response.json()`. Numbers are modeled as `ℚ`. -/
inductive Json where
  | null
  | bool (b : Bool)
  | num (q : ℚ)
  | str (s : String)
  | arr (xs : List Json)
  | obj (kvs : List (String × Json))

mutual

/-- Python `==` between two parsed-JSON values (structural; the source only
compares scalars, where Python equality is structural). -/
def jsonBEq : Json → Json → Bool
  | .null, .null => true
  | .bool a, .bool b => a == b
  | .num a, .num b => a == b
  | .str a, .str b => a == b
  | .arr as, .arr bs => jsonBEqList as bs
  | .obj as, .obj bs => jsonBEqObj as bs
  | _, _ => false

def jsonBEqList : List Json → List Json → Bool
  | [], [] => true
  | a :: as, b :: bs => jsonBEq a b && jsonBEqList as bs
  | _, _ => false

def jsonBEqObj : List (String × Json) → List (String × Json) → Bool
  | [], [] => true
  | (k1, v1) :: as, (k2, v2) :: bs => k1 == k2 && jsonBEq v1 v2 && jsonBEqObj as bs
  | _, _ => false

end

/-- Key lookup in a JSON object's field list (first match, as in a Python dict
whose keys are unique). -/
def jsonLookup : List (String × Json) → String → Option Json
  | [], _ => none
  | (k, v) :: rest, key => if k = key then some v else jsonLookup rest key

/-- Python `d.get(k)` on a dict: `none` when the key is absent.  (On non-dict
values Python raises `AttributeError`; every call site below checks for the
`obj` shape first and models that raise explicitly.) -/
def pyGet : Json → String → Option Json
  | .obj kvs, k => jsonLookup kvs k
  | _, _ => none

/-- Python truthiness of a JSON value. -/
def jsonTruthy : Json → Bool
  | .null => false
  | .bool b => b
  | .num q => decide (q ≠ 0)
  | .str s => decide (s ≠ "")
  | .arr l => !l.isEmpty
  | .obj l => !l.isEmpty

/-- `v == "s"` in Python: true only for an equal string. -/
def jsonEqStr (v : Json) (s : String) : Bool :=
  match v with
  | .str t => decide (t = s)
  | _ => false

/-- Python `str(v)` restricted to the value shapes the source feeds into its
f-strings.  Claims only exercise string-valued interface/group fields; the
numeric rendering is an approximation of Python's formatting and container
rendering is a placeholder (neither is reached by any theorem below). -/
def pyStr : Json → String
  | .str s => s
  | .bool true => "True"
  | .bool false => "False"
  | .null => "None"
  | .num q => toString q
  | .arr _ => "<list>"
  | .obj _ => "<dict>"

/-- Python `float(v)` as used by `_safe_float` and the legacy coercion loops:
numbers and booleans convert, `None`/lists/dicts raise (mapped to `none` by
the callers' `except` clauses).  Numeric strings, which Python would parse,
are not modeled — no claim exercises string-typed numeric fields. -/
def pyFloat : Json → Option ℚ
  | .num q => some q
  | .bool b => some (if b then 1 else 0)
  | _ => none

/-- `UniFiAPI._safe_float`: `None` stays `None`, coercion failure yields `None`. -/
def safeFloat (v : Option Json) : Option ℚ :=
  v.bind pyFloat

/-- `List Char` starts-with (structurally recursive so that proofs can
evaluate it; the library's `String` primitives do not kernel-reduce). -/
def startsList : List Char → List Char → Bool
  | _, [] => true
  | [], _ :: _ => false
  | a :: as, b :: bs => a == b && startsList as bs

/-- `List Char` substring containment. -/
def containsList : List Char → List Char → Bool
  | [], needle => needle.isEmpty
  | a :: as, needle => startsList (a :: as) needle || containsList as needle

/-- Python `pat in s` on strings: substring containment. -/
def strContains (s pat : String) : Bool :=
  containsList s.data pat.data

/-- Python `s.startswith(pre)`. -/
def pyStartsWith (s pre : String) : Bool :=
  startsList s.data pre.data

/-- ASCII upper-casing of one character (the subsystem names the source
upper/lower-cases are ASCII). -/
def asciiUpperChar (c : Char) : Char :=
  if 97 ≤ c.toNat ∧ c.toNat ≤ 122 then Char.ofNat (c.toNat - 32) else c

/-- ASCII lower-casing of one character. -/
def asciiLowerChar (c : Char) : Char :=
  if 65 ≤ c.toNat ∧ c.toNat ≤ 90 then Char.ofNat (c.toNat + 32) else c

/-- Python `s.upper()` (ASCII). -/
def pyUpper (s : String) : String := ⟨s.data.map asciiUpperChar⟩

/-- Python `s.lower()` (ASCII). -/
def pyLower (s : String) : String := ⟨s.data.map asciiLowerChar⟩

/-- Ordered-dict update, the semantics of `d[k] = v` on a Python dict:
an existing key keeps its position and gets the new value, a new key is
appended. -/
def updateAssoc {α : Type} : List (String × α) → String → α → List (String × α)
  | [], k, v => [(k, v)]
  | (k', v') :: rest, k, v =>
    if k' = k then (k, v) :: rest else (k', v') :: updateAssoc rest k v

/-!
## Session, rate-limit and request engine (api.py, `UniFiAPI`)

Wall-clock time is an explicit `ℚ` (seconds); `time.sleep(d)` advances it by
`d`.  Network calls are instantaneous events `(label, time)`.  The login lock
is not modeled: the host serializes calls (spec §5) and the lock only guards
against concurrent entry.
-/

/-- The mutable client state set up in `UniFiAPI.__init__` (the fields the
retry/backoff/cooldown logic reads and writes). -/
structure ApiState where
  lastLogin : Option ℚ := none
  last403Time : Option ℚ := none
  rateLimitBackoff : ℚ := 0
  consecutive403s : Nat := 0
  lastRequestTime : Option ℚ := none
  failedLoginCount : Nat := 0
  loginCooldownUntil : Option ℚ := none
deriving DecidableEq

/-- `self._max_consecutive_403s` -/
def maxConsecutive403s : Nat := 3

/-- `self._max_failed_logins` -/
def maxFailedLogins : Nat := 3

/-- `self._login_valid_duration` (seconds) -/
def loginValidDuration : ℚ := 1800

/-- `self._min_request_interval` (seconds) -/
def minRequestInterval : ℚ := 5

/-- `UniFiAPI._is_login_valid` -/
def isLoginValid (st : ApiState) (now : ℚ) : Bool :=
  match st.lastLogin with
  | none => false
  | some t => decide (now - t < loginValidDuration)

/-- `UniFiAPI._is_in_login_cooldown` -/
def isInLoginCooldown (st : ApiState) (now : ℚ) : Bool :=
  match st.loginCooldownUntil with
  | none => false
  | some t => decide (now < t)

/-- `UniFiAPI._enforce_rate_limit`: sleep off any deficit below the 5-second
minimum inter-request interval, then stamp `_last_request_time`.  Returns the
updated state and the advanced clock (= the moment the following network call
is issued). -/
def enforceRateLimit (st : ApiState) (now : ℚ) : ApiState × ℚ :=
  let now' :=
    match st.lastRequestTime with
    | some t => if now - t < minRequestInterval then now + (minRequestInterval - (now - t)) else now
    | none => now
  ({ st with lastRequestTime := some now' }, now')

/-- `UniFiAPI._handle_rate_limit`: bump the consecutive-403 counter, grow the
backoff (×1.5 capped at 300 within a 10-minute window, else reset to 30,
extended when the counter exceeds 3), sleep `backoff × jitter` (the
`random.uniform(0.8, 1.2)` draw is the `jitter` parameter), stamp
`_last_403_time` with the time captured on entry. -/
def handleRateLimit (st : ApiState) (now : ℚ) (jitter : ℚ) : ApiState × ℚ :=
  let c := st.consecutive403s + 1
  let b1 : ℚ :=
    match st.last403Time with
    | some t => if now - t < 600 then min (st.rateLimitBackoff * (3 / 2)) 300 else 30
    | none => 30
  let b2 := if maxConsecutive403s < c then max b1 (min 600 (60 * (c : ℚ))) else b1
  ({ st with consecutive403s := c, rateLimitBackoff := b2, last403Time := some now },
   now + b2 * jitter)

/-- Outcome of a dialect-specific login POST (`_login_udm` / `_login_controller`):
success, or a raised exception whose message may carry a 403/Forbidden
signature (`"403" in str(e) or "Forbidden" in str(e)`). -/
structure DialectLoginError where
  has403 : Bool
deriving DecidableEq

/-- Errors `login()` can raise. -/
inductive LoginError where
  /-- The cooldown short-circuit: "Login temporarily disabled due to repeated
  failures" — raised before any network call. -/
  | cooldown
  /-- The dialect login attempt raised and `login()` re-raised it. -/
  | attempt (e : DialectLoginError)
deriving DecidableEq

/-- A network call event: label and the clock value at which it is issued. -/
abbrev Event := String × ℚ

/-- `UniFiAPI.login`: cooldown short-circuit, else clear cookies, run the
dialect login (which itself calls `_enforce_rate_limit` and then POSTs — the
`outcome` parameter is what that POST attempt does), and update
success/failure bookkeeping.  Returns (state, clock, network-call events,
result). -/
def login (st : ApiState) (now : ℚ) (outcome : Except DialectLoginError Unit) :
    ApiState × ℚ × List Event × Except LoginError Unit :=
  if isInLoginCooldown st now then
    (st, now, [], .error .cooldown)
  else
    let (st1, now1) := enforceRateLimit st now
    match outcome with
    | .ok _ =>
      ({ st1 with lastLogin := some now1, failedLoginCount := 0,
                  consecutive403s := 0, loginCooldownUntil := none },
       now1, [("login", now1)], .ok ())
    | .error e =>
      let fc := st1.failedLoginCount + 1
      let c403 := if e.has403 then st1.consecutive403s + 1 else st1.consecutive403s
      let cd : Option ℚ :=
        if maxFailedLogins ≤ fc then
          some (now1 + 60 * min 30 (5 * (fc : ℚ)))
        else st1.loginCooldownUntil
      ({ st1 with lastLogin := none, failedLoginCount := fc, consecutive403s := c403,
                  loginCooldownUntil := cd },
       now1, [("login", now1)], .error (.attempt e))

/-- What the backend does with the HTTP call of one attempt inside
`_make_request`'s retry loop. -/
inductive ReqOutcome where
  /-- A response arrived with this status code. -/
  | status (code : Nat)
  /-- `RequestException` / `Timeout`. -/
  | netError
deriving DecidableEq

/-- Errors `_make_request` can raise. -/
inductive ReqError where
  /-- `HTTPError` surfaced with this status code (via `raise_for_status` or
  re-raised after exhausting retries). -/
  | http (code : Nat)
  /-- Network-level failure surfaced after exhausting retries. -/
  | net
  /-- A (re-)login failure propagated out of `_make_request`. -/
  | login (e : LoginError)
  /-- Unreachable sentinel: Python's `for attempt in range(max_retries + 1)`
  always returns or raises on its last iteration, so the loop never falls
  through; the fuel-0 case of the embedding is never hit when started with
  fuel = max_retries + 1. -/
  | unreachable
deriving DecidableEq

/-- The retry loop of `UniFiAPI._make_request` (api.py lines 230-293).
`responses a` is the backend's behaviour on attempt `a`; `logins i` is the
outcome of the `i`-th dialect login POST performed during this request;
`jitters a` is the backoff jitter drawn on attempt `a`.  Returns
(state, clock, network events, result-status-or-error). -/
def makeRequestLoop (responses : Nat → ReqOutcome) (logins : Nat → Except DialectLoginError Unit)
    (jitters : Nat → ℚ) (maxRetries : Nat) :
    ApiState → ℚ → Nat → Nat → Nat → ApiState × ℚ × List Event × Except ReqError Nat
  | st, now, _, _, 0 => (st, now, [], .error .unreachable)
  | st, now, li, a, fuel + 1 =>
    match responses a with
    | .status code =>
      if code = 200 then
        -- successful request: reset 403 counter and backoff if the counter is set
        let st' := if 0 < st.consecutive403s
                   then { st with consecutive403s := 0, rateLimitBackoff := 0 } else st
        (st', now, [("request", now)], .ok 200)
      else if code < 400 then
        -- raise_for_status() passes; return the response without any reset
        (st, now, [("request", now)], .ok code)
      else if code = 403 then
        if a < maxRetries then
          let (st1, now1) := handleRateLimit st now (jitters a)
          match login st1 now1 (logins li) with
          | (st2, now2, evs, .ok _) =>
            let (st3, now3, evs', r) := makeRequestLoop responses logins jitters maxRetries
              st2 now2 (li + 1) (a + 1) fuel
            (st3, now3, ("request", now) :: evs ++ evs', r)
          | (st2, now2, evs, .error le) =>
            if a = maxRetries - 1 then
              (st2, now2, ("request", now) :: evs, .error (.login le))
            else
              let (st3, now3, evs', r) := makeRequestLoop responses logins jitters maxRetries
                st2 now2 (li + 1) (a + 1) fuel
              (st3, now3, ("request", now) :: evs ++ evs', r)
        else
          (st, now, [("request", now)], .error (.http 403))
      else if code = 401 ∧ a < maxRetries then
        match login st now (logins li) with
        | (st2, now2, evs, .ok _) =>
          -- time.sleep(2) before the retry; no _enforce_rate_limit here
          let (st3, now3, evs', r) := makeRequestLoop responses logins jitters maxRetries
            st2 (now2 + 2) (li + 1) (a + 1) fuel
          (st3, now3, ("request", now) :: evs ++ evs', r)
        | (st2, now2, evs, .error le) =>
          (st2, now2, ("request", now) :: evs, .error (.login le))
      else
        (st, now, [("request", now)], .error (.http code))
    | .netError =>
      if a < maxRetries then
        -- linear backoff: sleep (attempt + 1) * 5
        let (st3, now3, evs', r) := makeRequestLoop responses logins jitters maxRetries
          st (now + ((a : ℚ) + 1) * 5) li (a + 1) fuel
        (st3, now3, ("request", now) :: evs', r)
      else
        (st, now, [("request", now)], .error .net)

/-- `UniFiAPI._make_request`: `_ensure_authenticated` (login when the session
is stale), `_enforce_rate_limit`, then the retry loop. -/
def makeRequest (st : ApiState) (now : ℚ) (responses : Nat → ReqOutcome)
    (logins : Nat → Except DialectLoginError Unit) (jitters : Nat → ℚ) (maxRetries : Nat) :
    ApiState × ℚ × List Event × Except ReqError Nat :=
  if isLoginValid st now then
    let (st1, now1) := enforceRateLimit st now
    makeRequestLoop responses logins jitters maxRetries st1 now1 0 0 (maxRetries + 1)
  else
    match login st now (logins 0) with
    | (st1, now1, evs, .ok _) =>
      let (st2, now2) := enforceRateLimit st1 now1
      let (st3, now3, evs', r) := makeRequestLoop responses logins jitters maxRetries
        st2 now2 1 0 (maxRetries + 1)
      (st3, now3, evs ++ evs', r)
    | (st1, now1, evs, .error le) => (st1, now1, evs, .error (.login le))

/-!
## Response normalization (api.py, `get_speed_test_status` and helpers)

The backend is an oracle `fetch : String → Except Unit Json` giving, for each
endpoint path, either the decoded JSON body of a successful request or
`.error ()` for any raised exception (HTTP error after retries, network
failure, login failure inside `_make_request`, `response.json()` decode
error).  Every call site wraps the request in `try/except Exception`, so this
is the whole interface the normalization code sees.
-/

/-- `entry.get(k1, entry.get(k2))`: the first key wins even when its value is
JSON `null` (Python returns the stored `None`, not the default). -/
def chainGet (kvs : List (String × Json)) (k1 k2 : String) : Option Json :=
  match jsonLookup kvs k1 with
  | some v => some v
  | none => jsonLookup kvs k2

/-- `route.get(k1, route.get(k2, ''))`. -/
def routeField (kvs : List (String × Json)) (k1 k2 : String) : Json :=
  match jsonLookup kvs k1 with
  | some v => v
  | none =>
    match jsonLookup kvs k2 with
    | some v => v
    | none => .str ""

/-- `v == "s"` on an `Option` from `.get`: a missing key gives Python `None`,
which compares unequal to any string. -/
def jsonEqStrOpt (v : Option Json) (s : String) : Bool :=
  match v with
  | some j => jsonEqStr j s
  | none => false

/-- First truthy value of a Python `a or b or ...` chain over `.get` results. -/
def firstTruthy : List (Option Json) → Option Json
  | [] => none
  | none :: rest => firstTruthy rest
  | some v :: rest => if jsonTruthy v then some v else firstTruthy rest

/-- `'data' in data and len(data['data']) > 0` (also used where the source
tests `and data['data']`, which agrees on arrays).  A non-array or non-object
shape is not taken (Python would raise on the subsequent element accesses and
the surrounding `except` skips the endpoint). -/
def dataField : Json → Option (List Json)
  | .obj kvs =>
    match jsonLookup kvs "data" with
    | some (.arr l) => if l.isEmpty then none else some l
    | _ => none
  | _ => none

/-- The numeric reading of a raw stored field (the source keeps the raw
`entry.get('time')`; UniFi timestamps are epoch-millisecond numbers.
Non-numeric timestamps — which would make the Python scoring comparison raise
and that layer answer nothing — are not modeled). -/
def numField (v : Option Json) : Option ℚ :=
  match v with
  | some (.num q) => some q
  | _ => none

/-- `'speedtest' in endpoint or 'v2/api' in endpoint` (UDM dialect). -/
def isSpeedtestStyleUdm (ep : String) : Bool :=
  strContains ep "speedtest" || strContains ep "v2/api"

/-- `'speedtest' in endpoint` (classic controller dialect). -/
def isSpeedtestStyleController (ep : String) : Bool :=
  strContains ep "speedtest"

/-- The canonical legacy/single-WAN result dict.  Only the controller health
branch ever sets the `status` key; a dict without the key is modeled with
`status := none`. -/
structure LegacyResult where
  download : Option ℚ
  upload : Option ℚ
  ping : Option ℚ
  status : Option Json

/-- `{'download': None, 'upload': None, 'ping': None}` (and the controller
variant with `'status': None`). -/
def emptyLegacy : LegacyResult :=
  { download := none, upload := none, ping := none, status := none }

/-- One detected WAN interface record (the value dict stored into
`wan_interfaces`).  The bookkeeping-only keys `id`, `status` and
`source_endpoint` are carried through unchanged by the source and never read
by any logic under verification; they are omitted. -/
structure WanData where
  interface_name : Json
  wan_networkgroup : Json
  download : Option ℚ
  upload : Option ℚ
  ping : Option ℚ
  timestamp : Option ℚ

/-- The ordered dict `wan_interfaces`. -/
abbrev WanDict := List (String × WanData)

/-- The f-string key `f"{interface_name}_{wan_group}"` recomputed from a
stored record. -/
def wanKeyOf (w : WanData) : String :=
  pyStr w.interface_name ++ "_" ++ pyStr w.wan_networkgroup

/-- Endpoint candidates of `_get_speed_test_status_udm`. -/
def udmLegacyEndpoints (site : String) : List String :=
  ["/proxy/network/api/s/" ++ site ++ "/stat/health",
   "/proxy/network/v2/api/site/" ++ site ++ "/speedtest",
   "/proxy/network/api/s/" ++ site ++ "/stat/speedtest"]

/-- Endpoint candidates of `_get_speed_test_status_controller`. -/
def controllerLegacyEndpoints (site : String) : List String :=
  ["/api/s/" ++ site ++ "/stat/health",
   "/api/s/" ++ site ++ "/stat/speedtest"]

/-- Endpoint candidates of `_get_speed_test_status_udm_multi_wan`. -/
def udmMwEndpoints (site : String) : List String :=
  ["/proxy/network/v2/api/site/" ++ site ++ "/speedtest",
   "/proxy/network/api/s/" ++ site ++ "/stat/speedtest",
   "/proxy/network/api/s/" ++ site ++ "/stat/health"]

/-- Endpoint candidates of `_get_speed_test_status_controller_multi_wan`. -/
def controllerMwEndpoints (site : String) : List String :=
  ["/api/s/" ++ site ++ "/stat/speedtest",
   "/api/s/" ++ site ++ "/stat/health"]

/-- Endpoint candidates of `_get_udm_routing_info`. -/
def udmRoutingEndpoints (site : String) : List String :=
  ["/proxy/network/api/s/" ++ site ++ "/stat/routes",
   "/proxy/network/api/s/" ++ site ++ "/stat/routing",
   "/proxy/network/api/s/" ++ site ++ "/rest/routing/table"]

/-- Endpoint candidates of `_get_udm_network_config`. -/
def udmNetworkConfEndpoints (site : String) : List String :=
  ["/proxy/network/api/s/" ++ site ++ "/rest/networkconf",
   "/proxy/network/api/s/" ++ site ++ "/rest/wanconf"]

/-- Endpoint candidates of `_get_controller_routing_info`. -/
def controllerRoutingEndpoints (site : String) : List String :=
  ["/api/s/" ++ site ++ "/stat/routes",
   "/api/s/" ++ site ++ "/stat/routing"]

/-- The scan for the `'www'` subsystem in the legacy health branch.  A
non-dict entry makes `subsystem.get` raise; no match falls through — either
way the endpoint loop does `continue`, so both map to `none`. -/
def findWww : List Json → Option Json
  | [] => none
  | .obj kvs :: rest =>
    if jsonEqStrOpt (jsonLookup kvs "subsystem") "www" then some (.obj kvs) else findWww rest
  | _ :: _ => none

/-- Per-endpoint processing of `_get_speed_test_status_udm`; `none` means the
loop continues to the next endpoint (no data, no `www` subsystem, or a raise
caught by the `except`). -/
def udmLegacyFromEndpoint (ep : String) (j : Json) : Option LegacyResult :=
  match dataField j with
  | none => none
  | some l =>
    if isSpeedtestStyleUdm ep then
      match l.getLast? with
      | some (.obj kvs) =>
        some { download := safeFloat (chainGet kvs "download_mbps" "xput_down"),
               upload := safeFloat (chainGet kvs "upload_mbps" "xput_up"),
               ping := safeFloat (chainGet kvs "latency_ms" "speedtest_ping"),
               status := none }
      | _ => none
    else
      match findWww l with
      | some (.obj kvs) =>
        some { download := safeFloat (jsonLookup kvs "xput_down"),
               upload := safeFloat (jsonLookup kvs "xput_up"),
               ping := safeFloat (jsonLookup kvs "speedtest_ping"),
               status := none }
      | _ => none

/-- Per-endpoint processing of `_get_speed_test_status_controller`. -/
def controllerLegacyFromEndpoint (ep : String) (j : Json) : Option LegacyResult :=
  match dataField j with
  | none => none
  | some l =>
    if isSpeedtestStyleController ep then
      match l.getLast? with
      | some (.obj kvs) =>
        some { download := safeFloat (jsonLookup kvs "xput_down"),
               upload := safeFloat (jsonLookup kvs "xput_up"),
               ping := safeFloat (jsonLookup kvs "speedtest_ping"),
               status := none }
      | _ => none
    else
      match findWww l with
      | some (.obj kvs) =>
        some { download := safeFloat (jsonLookup kvs "xput_down"),
               upload := safeFloat (jsonLookup kvs "xput_up"),
               ping := safeFloat (jsonLookup kvs "speedtest_ping"),
               status := jsonLookup kvs "speedtest_status" }
      | _ => none

/-- `_get_speed_test_status_udm`: first endpoint that yields a usable record,
else the all-absent dict. -/
def getSpeedTestStatusUdm (site : String) (fetch : String → Except Unit Json) : LegacyResult :=
  ((udmLegacyEndpoints site).findSome? fun ep =>
    match fetch ep with
    | .error _ => none
    | .ok j => udmLegacyFromEndpoint ep j).getD emptyLegacy

/-- `_get_speed_test_status_controller`. -/
def getSpeedTestStatusController (site : String) (fetch : String → Except Unit Json) :
    LegacyResult :=
  ((controllerLegacyEndpoints site).findSome? fun ep =>
    match fetch ep with
    | .error _ => none
    | .ok j => controllerLegacyFromEndpoint ep j).getD emptyLegacy

/-!
### Multi-WAN collection

The per-entry processors return `Except WanDict WanDict`: `.ok` is normal
completion, `.error` models a raise part-way through an endpoint's entry loop
— the endpoint's `except` clause then does `continue`, keeping the entries
accumulated so far (the dict lives outside the endpoint loop in the source).
-/

/-- One entry of a UDM speedtest-style endpoint
(`_get_speed_test_status_udm_multi_wan`, direct-speedtest branch). -/
def udmMwSpeedtestEntry (d : WanDict) : Json → Except WanDict WanDict
  | .obj kvs =>
    let wanGroup := (jsonLookup kvs "wan_networkgroup").getD (.str "WAN")
    let iface : Json :=
      match jsonLookup kvs "interface_name" with
      | some v => if jsonTruthy v then v else (jsonLookup kvs "interface").getD (.str "unknown")
      | none => (jsonLookup kvs "interface").getD (.str "unknown")
    if jsonTruthy iface && !jsonEqStr iface "unknown" then
      .ok (updateAssoc d (pyStr iface ++ "_" ++ pyStr wanGroup)
        { interface_name := iface, wan_networkgroup := wanGroup,
          download := safeFloat (jsonLookup kvs "download_mbps"),
          upload := safeFloat (jsonLookup kvs "upload_mbps"),
          ping := safeFloat (jsonLookup kvs "latency_ms"),
          timestamp := numField (jsonLookup kvs "time") })
    else .ok d
  | _ => .error d

/-- One entry of the UDM health endpoint branch. -/
def udmMwHealthEntry (d : WanDict) : Json → Except WanDict WanDict
  | .obj kvs =>
    match (jsonLookup kvs "subsystem").getD (.str "") with
    | .str name =>
      let isWan := strContains (pyLower name) "wan" || decide (name = "www") ||
                   strContains (pyLower name) "internet" || pyStartsWith name "WAN" ||
                   strContains (pyLower name) "gateway"
      if isWan then
        let iface : Json :=
          match firstTruthy
            [jsonLookup kvs "interface", jsonLookup kvs "wan_interface",
             jsonLookup kvs "name"] with
          | some v => v
          | none => .str name
        let wanGroup := if name = "www" then "WAN" else pyUpper name
        .ok (updateAssoc d (pyStr iface ++ "_" ++ wanGroup)
          { interface_name := iface, wan_networkgroup := .str wanGroup,
            download := safeFloat (jsonLookup kvs "xput_down"),
            upload := safeFloat (jsonLookup kvs "xput_up"),
            ping := safeFloat (jsonLookup kvs "speedtest_ping"),
            timestamp := none })
      else .ok d
    -- a non-string subsystem value makes `.lower()` raise, aborting the endpoint
    | _ => .error d
  | _ => .error d

/-- One entry of a controller speedtest-style endpoint
(`_get_speed_test_status_controller_multi_wan`). -/
def controllerMwSpeedtestEntry (d : WanDict) : Json → Except WanDict WanDict
  | .obj kvs =>
    let iface : Json :=
      (jsonLookup kvs "interface_name").getD ((jsonLookup kvs "interface").getD (.str "unknown"))
    let wanGroup : Json :=
      (jsonLookup kvs "wan_networkgroup").getD ((jsonLookup kvs "wan_group").getD (.str "WAN"))
    if jsonTruthy iface && !jsonEqStr iface "unknown" then
      .ok (updateAssoc d (pyStr iface ++ "_" ++ pyStr wanGroup)
        { interface_name := iface, wan_networkgroup := wanGroup,
          download := safeFloat (chainGet kvs "xput_down" "download_mbps"),
          upload := safeFloat (chainGet kvs "xput_up" "upload_mbps"),
          ping := safeFloat (chainGet kvs "speedtest_ping" "latency_ms"),
          timestamp := numField (jsonLookup kvs "time") })
    else .ok d
  | _ => .error d

/-- One entry of the controller health endpoint branch (interface fallback
chain has no `'name'` step, unlike the UDM variant). -/
def controllerMwHealthEntry (d : WanDict) : Json → Except WanDict WanDict
  | .obj kvs =>
    match (jsonLookup kvs "subsystem").getD (.str "") with
    | .str name =>
      let isWan := strContains (pyLower name) "wan" || decide (name = "www") ||
                   strContains (pyLower name) "internet" || strContains (pyLower name) "gateway" ||
                   pyStartsWith name "WAN"
      if isWan then
        let iface : Json :=
          match firstTruthy [jsonLookup kvs "interface", jsonLookup kvs "wan_interface"] with
          | some v => v
          | none => .str name
        let wanGroup := if name = "www" then "WAN" else pyUpper name
        .ok (updateAssoc d (pyStr iface ++ "_" ++ wanGroup)
          { interface_name := iface, wan_networkgroup := .str wanGroup,
            download := safeFloat (jsonLookup kvs "xput_down"),
            upload := safeFloat (jsonLookup kvs "xput_up"),
            ping := safeFloat (jsonLookup kvs "speedtest_ping"),
            timestamp := none })
      else .ok d
    | _ => .error d
  | _ => .error d

/-- `for entry in data['data']`, aborting on a raise but keeping the partial
dict. -/
def foldEntries (f : WanDict → Json → Except WanDict WanDict) :
    WanDict → List Json → Except WanDict WanDict
  | d, [] => .ok d
  | d, e :: rest =>
    match f d e with
    | .ok d' => foldEntries f d' rest
    | .error d' => .error d'

/-- The endpoint loop shared by both multi-WAN getters: on fetch failure or
missing/empty `data`, continue; after processing entries, break iff the dict
is non-empty and the endpoint's processing did not raise. -/
def mwScan (fetch : String → Except Unit Json)
    (pick : String → WanDict → List Json → Except WanDict WanDict) :
    WanDict → List String → WanDict
  | d, [] => d
  | d, ep :: rest =>
    match fetch ep with
    | .error _ => mwScan fetch pick d rest
    | .ok j =>
      match dataField j with
      | none => mwScan fetch pick d rest
      | some l =>
        match pick ep d l with
        | .error d' => mwScan fetch pick d' rest
        | .ok d' => if d'.isEmpty then mwScan fetch pick d' rest else d'

/-!
### Primary-WAN determination
-/

/-- `_get_udm_routing_info` / `_get_udm_network_config` /
`_get_controller_routing_info`: first endpoint whose body has a truthy
`data`. -/
def getDataList (fetch : String → Except Unit Json) (eps : List String) :
    Option (List Json) :=
  eps.findSome? fun ep =>
    match fetch ep with
    | .error _ => none
    | .ok j => dataField j

/-- Pass-1 WAN matcher of `_find_primary_from_routing`:
`interface == wan_interface or interface.startswith(wan_interface) or
wan_interface.startswith(interface)`; `.startswith` with a non-string raises
(`.error`), which the enclosing `except` turns into no answer. -/
def routeMatchWan1 (interface : Json) : WanDict → Except Unit (Option String)
  | [] => .ok none
  | (k, w) :: rest =>
    if jsonTruthy w.interface_name && jsonTruthy interface then
      if jsonBEq interface w.interface_name then .ok (some k)
      else
        match interface, w.interface_name with
        | .str a, .str b =>
          if pyStartsWith a b || pyStartsWith b a then .ok (some k)
          else routeMatchWan1 interface rest
        | _, _ => .error ()
    else routeMatchWan1 interface rest

/-- Pass-2 WAN matcher (`interface.startswith(wan_interface)` only). -/
def routeMatchWan2 (interface : Json) : WanDict → Except Unit (Option String)
  | [] => .ok none
  | (k, w) :: rest =>
    if jsonTruthy w.interface_name && jsonTruthy interface then
      match interface, w.interface_name with
      | .str a, .str b =>
        if pyStartsWith a b then .ok (some k) else routeMatchWan2 interface rest
      | _, _ => .error ()
    else routeMatchWan2 interface rest

/-- Pass 1 of `_find_primary_from_routing`: default route by
network/netmask, matched against the detected WANs. -/
def defaultRoutePass1 (wd : WanDict) : List Json → Except Unit (Option String)
  | [] => .ok none
  | .obj kvs :: rest =>
    let network := routeField kvs "network" "destination"
    let netmask := routeField kvs "netmask" "mask"
    let interface := routeField kvs "interface" "dev"
    if (jsonEqStr network "0.0.0.0" || jsonEqStr network "default") &&
       (jsonEqStr netmask "0.0.0.0" || jsonEqStr netmask "0") then
      match routeMatchWan1 interface wd with
      | .ok (some k) => .ok (some k)
      | .ok none => defaultRoutePass1 wd rest
      | .error e => .error e
    else defaultRoutePass1 wd rest
  | _ :: _ => .error ()

/-- Pass 2 candidate collection: routes whose network is a default-route
marker. -/
def collectDefaultRoutes : List Json → Except Unit (List (List (String × Json)))
  | [] => .ok []
  | .obj kvs :: rest =>
    (collectDefaultRoutes rest).map fun tail =>
      if jsonEqStr (routeField kvs "network" "destination") "0.0.0.0" ||
         jsonEqStr (routeField kvs "network" "destination") "default"
      then kvs :: tail else tail
  | _ :: _ => .error ()

/-- The sort key `r.get('metric', r.get('priority', 9999))`.  Numeric (and
boolean) metrics are modeled; other types would make Python's comparison
raise on mixed lists (string-only metric lists, which Python would order
lexicographically, are not modeled). -/
def metricVal : Json → Except Unit ℚ
  | .num q => .ok q
  | .bool b => .ok (if b then 1 else 0)
  | _ => .error ()

def metricKey (kvs : List (String × Json)) : Except Unit ℚ :=
  match jsonLookup kvs "metric" with
  | some v => metricVal v
  | none =>
    match jsonLookup kvs "priority" with
    | some v => metricVal v
    | none => .ok 9999

/-- `_find_primary_from_routing` body (the wrapper below catches `.error`). -/
def findPrimaryFromRoutingE (ri : List Json) (wd : WanDict) :
    Except Unit (Option String) := do
  match ← defaultRoutePass1 wd ri with
  | some k => return some k
  | none =>
    let dr ← collectDefaultRoutes ri
    if dr.isEmpty then return none
    else
      let keyed ← dr.mapM fun kvs => do
        let m ← metricKey kvs
        pure (kvs, m)
      let sorted := @List.insertionSort (List (String × Json) × ℚ)
        (fun a b => a.2 ≤ b.2) (fun a b => inferInstanceAs (Decidable (a.2 ≤ b.2))) keyed
      match sorted.head? with
      | some best => routeMatchWan2 (routeField best.1 "interface" "dev") wd
      | none => return none

def findPrimaryFromRouting (ri : List Json) (wd : WanDict) : Option String :=
  match findPrimaryFromRoutingE ri wd with
  | .ok r => r
  | .error _ => none

/-- Primary-from-config matcher when `is_primary` is truthy (equality, then
one-direction `startswith`). -/
def configMatchPrim (interface : Json) : WanDict → Except Unit (Option String)
  | [] => .ok none
  | (k, w) :: rest =>
    if jsonTruthy w.interface_name && jsonTruthy interface then
      if jsonBEq interface w.interface_name then .ok (some k)
      else
        match interface, w.interface_name with
        | .str a, .str b =>
          if pyStartsWith a b then .ok (some k) else configMatchPrim interface rest
        | _, _ => .error ()
    else configMatchPrim interface rest

/-- DHCP-preference matcher (`wan_interface and interface.startswith(...)`;
the caller has already checked `interface`'s truthiness). -/
def configMatchDhcp (interface : Json) : WanDict → Except Unit (Option String)
  | [] => .ok none
  | (k, w) :: rest =>
    if jsonTruthy w.interface_name then
      match interface, w.interface_name with
      | .str a, .str b =>
        if pyStartsWith a b then .ok (some k) else configMatchDhcp interface rest
      | _, _ => .error ()
    else configMatchDhcp interface rest

/-- `_find_primary_from_network_config` body. -/
def findPrimaryFromNetworkConfigE (wd : WanDict) : List Json → Except Unit (Option String)
  | [] => .ok none
  | .obj kvs :: rest => do
    match (jsonLookup kvs "purpose").getD (.str "") with
    | .str purpose =>
      if strContains (pyLower purpose) "wan" then
        let interface := routeField kvs "interface" "name"
        let isPrimary :=
          (jsonLookup kvs "is_primary").getD ((jsonLookup kvs "primary").getD (.bool false))
        let wanType := routeField kvs "wan_type" "type"
        let r1 ← if jsonTruthy isPrimary then configMatchPrim interface wd else pure none
        match r1 with
        | some k => return some k
        | none =>
          if jsonEqStr wanType "dhcp" && jsonTruthy interface then
            let r2 ← configMatchDhcp interface wd
            match r2 with
            | some k => return some k
            | none => findPrimaryFromNetworkConfigE wd rest
          else findPrimaryFromNetworkConfigE wd rest
      else findPrimaryFromNetworkConfigE wd rest
    -- `.lower()` on a non-string purpose raises
    | _ => .error ()
  | _ :: _ => .error ()

def findPrimaryFromNetworkConfig (nc : List Json) (wd : WanDict) : Option String :=
  match findPrimaryFromNetworkConfigE wd nc with
  | .ok r => r
  | .error _ => none

/-- `score += 10` for a positive download, `+10` for a positive upload,
`+5` for a truthy timestamp (`if timestamp:` — a present zero gets nothing). -/
def wanScore (w : WanData) : Nat :=
  (if (match w.download with | some d => decide (0 < d) | none => false) then 10 else 0) +
  (if (match w.upload with | some u => decide (0 < u) | none => false) then 10 else 0) +
  (if (match w.timestamp with | some t => decide (t ≠ 0) | none => false) then 5 else 0)

/-- The descending stable order of
`wan_with_data.sort(key=lambda x: (x[1], x[2] or 0), reverse=True)`:
`x` may precede `y` iff `y`'s key is not greater. -/
def scoreRel (x y : String × Nat × Option ℚ) : Prop :=
  y.2.1 < x.2.1 ∨ (y.2.1 = x.2.1 ∧ y.2.2.getD 0 ≤ x.2.2.getD 0)

instance : DecidableRel scoreRel := fun x y => by
  unfold scoreRel; infer_instance

instance : IsTrans (String × Nat × Option ℚ) scoreRel where
  trans := by
    intro a b c hab hbc
    rcases hab with h1 | ⟨h1, h2⟩ <;> rcases hbc with h3 | ⟨h3, h4⟩
    · exact Or.inl (h3.trans h1)
    · exact Or.inl (lt_of_eq_of_lt h3 h1)
    · exact Or.inl (lt_of_lt_of_eq h3 h1)
    · exact Or.inr ⟨h3.trans h1, h4.trans h2⟩

instance : IsTotal (String × Nat × Option ℚ) scoreRel where
  total := by
    intro a b
    rcases lt_trichotomy b.2.1 a.2.1 with h | h | h
    · exact Or.inl (Or.inl h)
    · rcases le_total (b.2.2.getD 0) (a.2.2.getD 0) with h2 | h2
      · exact Or.inl (Or.inr ⟨h, h2⟩)
      · exact Or.inr (Or.inr ⟨h.symm, h2⟩)
    · exact Or.inr (Or.inl h)

/-- `_find_primary_from_speedtest_data`: keep interfaces with a positive
score, sort stably by (score, timestamp-or-0) descending, take the first.
(The body's `try/except` only fires for non-numeric timestamps, which are
outside the model — see `numField`.) -/
def findPrimaryFromSpeedtestData (wd : WanDict) : Option String :=
  let withData := wd.filterMap fun p =>
    let s := wanScore p.2
    if 0 < s then some (p.1, s, p.2.timestamp) else none
  (List.insertionSort scoreRel withData).head?.map (·.1)

/-- `_determine_primary_wan_udm`: routing evidence, then network-config
evidence, then speed-test-data scoring, then first-detected fallback. -/
def determinePrimaryWanUdm (site : String) (fetch : String → Except Unit Json)
    (wd : WanDict) : Option String :=
  if wd.isEmpty then none
  else
    let r1 :=
      match getDataList fetch (udmRoutingEndpoints site) with
      | some ri => findPrimaryFromRouting ri wd
      | none => none
    match r1 with
    | some k => some k
    | none =>
      let r2 :=
        match getDataList fetch (udmNetworkConfEndpoints site) with
        | some nc => findPrimaryFromNetworkConfig nc wd
        | none => none
      match r2 with
      | some k => some k
      | none =>
        match findPrimaryFromSpeedtestData wd with
        | some k => some k
        | none => wd.head?.map (·.1)

/-- `_determine_primary_wan_controller` (no network-config layer). -/
def determinePrimaryWanController (site : String) (fetch : String → Except Unit Json)
    (wd : WanDict) : Option String :=
  if wd.isEmpty then none
  else
    let r1 :=
      match getDataList fetch (controllerRoutingEndpoints site) with
      | some ri => findPrimaryFromRouting ri wd
      | none => none
    match r1 with
    | some k => some k
    | none =>
      match findPrimaryFromSpeedtestData wd with
      | some k => some k
      | none => wd.head?.map (·.1)

/-- The multi-WAN result dict.  `platform_type`/`detection_method` are absent
(`none`) in the degraded dicts built by `get_speed_test_status` itself. -/
structure MultiWanResult where
  wan_interfaces : List WanData
  total_interfaces : Nat
  primary_wan : Option String
  multi_wan_enabled : Bool
  platform_type : Option String
  detection_method : Option String

def emptyMultiWan : MultiWanResult :=
  { wan_interfaces := [], total_interfaces := 0, primary_wan := none,
    multi_wan_enabled := true, platform_type := none, detection_method := none }

def udmMwPick (ep : String) (d : WanDict) (l : List Json) : Except WanDict WanDict :=
  if isSpeedtestStyleUdm ep then foldEntries udmMwSpeedtestEntry d l
  else foldEntries udmMwHealthEntry d l

def controllerMwPick (ep : String) (d : WanDict) (l : List Json) : Except WanDict WanDict :=
  if isSpeedtestStyleController ep then foldEntries controllerMwSpeedtestEntry d l
  else foldEntries controllerMwHealthEntry d l

/-- `_get_speed_test_status_udm_multi_wan`. -/
def getSpeedTestStatusUdmMultiWan (site : String) (fetch : String → Except Unit Json) :
    MultiWanResult :=
  let wd := mwScan fetch udmMwPick [] (udmMwEndpoints site)
  let primary := if wd.isEmpty then none else determinePrimaryWanUdm site fetch wd
  { wan_interfaces := wd.map (·.2), total_interfaces := wd.length,
    primary_wan := primary, multi_wan_enabled := true,
    platform_type := some "udm", detection_method := some "multi_endpoint_scan" }

/-- `_get_speed_test_status_controller_multi_wan`. -/
def getSpeedTestStatusControllerMultiWan (site : String) (fetch : String → Except Unit Json) :
    MultiWanResult :=
  let wd := mwScan fetch controllerMwPick [] (controllerMwEndpoints site)
  let primary := if wd.isEmpty then none else determinePrimaryWanController site fetch wd
  { wan_interfaces := wd.map (·.2), total_interfaces := wd.length,
    primary_wan := primary, multi_wan_enabled := true,
    platform_type := some "controller", detection_method := some "legacy_endpoint_scan" }

/-- The canonical result: legacy or multi-WAN shape. -/
inductive StatusResult where
  | legacy (r : LegacyResult)
  | multiWan (r : MultiWanResult)

/-- `UniFiAPI.get_speed_test_status`: 403-circuit-breaker short-circuit, then
dispatch on the multi-WAN flag and controller type.  The inner getters catch
every exception endpoint-by-endpoint and are total, so the outer
`try/except` (which would also return the degraded dicts) never fires; the
embedding is correspondingly a total function — the "never raises" claim. -/
def getSpeedTestStatus (controllerType : String) (enableMultiWan : Bool)
    (consecutive403s : Nat) (site : String) (fetch : String → Except Unit Json) :
    StatusResult :=
  if maxConsecutive403s < consecutive403s then
    if enableMultiWan then .multiWan emptyMultiWan else .legacy emptyLegacy
  else if enableMultiWan then
    .multiWan (if controllerType = "udm" then getSpeedTestStatusUdmMultiWan site fetch
               else getSpeedTestStatusControllerMultiWan site fetch)
  else
    .legacy (if controllerType = "udm" then getSpeedTestStatusUdm site fetch
             else getSpeedTestStatusController site fetch)

/-!
## Execution tracker (sensor.py, `SpeedTestTracker`)

Datetimes are modeled by their ISO strings (the `isoformat`/`fromisoformat`
round trip is the identity on the strings the tracker itself writes, and no
claim inspects their internal structure).
-/

/-- One element of `failure_reasons` (the dict appended by `record_failure`). -/
structure FailureEntry where
  time : String
  reason : String
  automated : Bool
deriving DecidableEq

/-- The tracker's mutable attributes, with the `__init__` defaults. -/
structure SpeedTestTracker where
  total_attempts : Nat := 0
  successful_runs : Nat := 0
  failed_runs : Nat := 0
  automated_attempts : Nat := 0
  manual_attempts : Nat := 0
  automated_successes : Nat := 0
  manual_successes : Nat := 0
  automated_failures : Nat := 0
  manual_failures : Nat := 0
  last_run_time : Option String := none
  last_success_time : Option String := none
  last_failure_time : Option String := none
  last_automated_run : Option String := none
  last_manual_run : Option String := none
  last_failure_reason : Option String := none
  failure_reasons : List FailureEntry := []
deriving DecidableEq

/-- A fresh tracker (`SpeedTestTracker.__init__`). -/
def freshTracker : SpeedTestTracker := {}

/-- What the key-value store may hold: each field optional, so partial data is
representable (a key stored as JSON `null` and a missing key both read back
as Python `None`, hence a single `Option` layer). -/
structure StoredData where
  total_attempts : Option Nat := none
  successful_runs : Option Nat := none
  failed_runs : Option Nat := none
  automated_attempts : Option Nat := none
  manual_attempts : Option Nat := none
  automated_successes : Option Nat := none
  manual_successes : Option Nat := none
  automated_failures : Option Nat := none
  manual_failures : Option Nat := none
  last_failure_reason : Option String := none
  failure_reasons : Option (List FailureEntry) := none
  last_run_time : Option String := none
  last_success_time : Option String := none
  last_failure_time : Option String := none
  last_automated_run : Option String := none
  last_manual_run : Option String := none
deriving DecidableEq

/-- Python `l[-10:]`. -/
def lastTen {α : Type} (l : List α) : List α :=
  l.drop (l.length - 10)

/-- `SpeedTestTracker.async_save`: the dict written to the store
(`failure_reasons` bounded to the last 10). -/
def trackerSave (t : SpeedTestTracker) : StoredData :=
  { total_attempts := some t.total_attempts,
    successful_runs := some t.successful_runs,
    failed_runs := some t.failed_runs,
    automated_attempts := some t.automated_attempts,
    manual_attempts := some t.manual_attempts,
    automated_successes := some t.automated_successes,
    manual_successes := some t.manual_successes,
    automated_failures := some t.automated_failures,
    manual_failures := some t.manual_failures,
    last_failure_reason := t.last_failure_reason,
    failure_reasons := some (lastTen t.failure_reasons),
    last_run_time := t.last_run_time,
    last_success_time := t.last_success_time,
    last_failure_time := t.last_failure_time,
    last_automated_run := t.last_automated_run,
    last_manual_run := t.last_manual_run }

/-- `time_str = data.get(field); if time_str: setattr(..., fromisoformat(...))`
— absent or falsy (empty) strings leave the attribute untouched. -/
def loadTime (stored : Option String) (current : Option String) : Option String :=
  match stored with
  | some s => if s = "" then current else some s
  | none => current

/-- `SpeedTestTracker.async_load` applied to tracker `t`: `if data:` keeps `t`
unchanged on missing store content; otherwise counters default to 0,
`failure_reasons` to `[]`. -/
def trackerLoad (t : SpeedTestTracker) (d : Option StoredData) : SpeedTestTracker :=
  match d with
  | none => t
  | some d =>
    { t with
      total_attempts := d.total_attempts.getD 0,
      successful_runs := d.successful_runs.getD 0,
      failed_runs := d.failed_runs.getD 0,
      automated_attempts := d.automated_attempts.getD 0,
      manual_attempts := d.manual_attempts.getD 0,
      automated_successes := d.automated_successes.getD 0,
      manual_successes := d.manual_successes.getD 0,
      automated_failures := d.automated_failures.getD 0,
      manual_failures := d.manual_failures.getD 0,
      last_failure_reason := d.last_failure_reason,
      failure_reasons := d.failure_reasons.getD [],
      last_run_time := loadTime d.last_run_time t.last_run_time,
      last_success_time := loadTime d.last_success_time t.last_success_time,
      last_failure_time := loadTime d.last_failure_time t.last_failure_time,
      last_automated_run := loadTime d.last_automated_run t.last_automated_run,
      last_manual_run := loadTime d.last_manual_run t.last_manual_run }

/-!
## Spec-side predicates and concrete scenario fixtures
-/

/-- The dict behind an `Except WanDict WanDict` (both outcomes carry the
accumulated dict). -/
def exDict : Except WanDict WanDict → WanDict
  | .ok d => d
  | .error d => d

/-- Invariant of the `wan_interfaces` dict: keys are unique and each key is
the concatenated interface/group string of its value. -/
def WanDictInv (d : WanDict) : Prop :=
  (d.map Prod.fst).Nodup ∧ ∀ p ∈ d, p.1 = wanKeyOf p.2

/-- The result shape matches the configured mode. -/
def resultShapeMatches (mw : Bool) : StatusResult → Prop
  | .legacy _ => mw = false
  | .multiWan _ => mw = true

/-- The degraded, all-fields-absent canonical result. -/
def fieldsAbsent : StatusResult → Prop
  | .legacy l => l.download = none ∧ l.upload = none ∧ l.ping = none
  | .multiWan m => m.wan_interfaces = [] ∧ m.total_interfaces = 0 ∧ m.primary_wan = none

/-- A client state with a fresh valid session and clean rate-limit state. -/
def freshAuthedState : ApiState := { lastLogin := some 0 }

/-- A client state with a valid session, one recorded rejection and a
30-second backoff. -/
def rejectedOnceState : ApiState :=
  { lastLogin := some 0, consecutive403s := 1, rateLimitBackoff := 30 }

/-- Backend behaviour of C3's scenario: 403 on the first two attempts, 200 on
the third. -/
def rejectTwiceResponses : Nat → ReqOutcome :=
  fun a => if a < 2 then .status 403 else .status 200

/-- Backend behaviour of C7's scenario: 401 on the first attempt, then 200. -/
def unauthorizedOnceResponses : Nat → ReqOutcome :=
  fun a => if a = 0 then .status 401 else .status 200

/-- A history entry as in the C5 payload. -/
def historyEntry (d u p : ℚ) : Json :=
  .obj [("download_mbps", .num d), ("upload_mbps", .num u), ("latency_ms", .num p)]

/-- A backend serving a speed-test history on the UDM v2 endpoint and failing
everywhere else. -/
def historyFetch (l : List Json) : String → Except Unit Json := fun ep =>
  if ep = "/proxy/network/v2/api/site/default/speedtest" then
    .ok (.obj [("data", .arr l)])
  else .error ()

/-- C6's health payload: subsystems wan2 (download 100) and www (download 50). -/
def healthFetchBothPositive : String → Except Unit Json := fun ep =>
  if ep = "/proxy/network/api/s/default/stat/health" then
    .ok (.obj [("data", .arr
      [.obj [("subsystem", .str "wan2"), ("xput_down", .num 100)],
       .obj [("subsystem", .str "www"), ("xput_down", .num 50)]])])
  else .error ()

/-- C6's payload with www throughput zeroed. -/
def healthFetchWwwZero : String → Except Unit Json := fun ep =>
  if ep = "/proxy/network/api/s/default/stat/health" then
    .ok (.obj [("data", .arr
      [.obj [("subsystem", .str "wan2"), ("xput_down", .num 100)],
       .obj [("subsystem", .str "www"), ("xput_down", .num 0)]])])
  else .error ()

/-- Two positive-throughput interfaces with distinct timestamps, for the
timestamp tie-break. -/
def historyFetchTie : String → Except Unit Json := fun ep =>
  if ep = "/proxy/network/v2/api/site/default/speedtest" then
    .ok (.obj [("data", .arr
      [.obj [("interface_name", .str "eth8"), ("download_mbps", .num 10), ("time", .num 100)],
       .obj [("interface_name", .str "eth9"), ("download_mbps", .num 10), ("time", .num 200)]])])
  else .error ()

/-- A detected interface with no measurements and no timestamp (score 0). -/
def wanNoData : WanData :=
  { interface_name := .str "wan1", wan_networkgroup := .str "WAN",
    download := none, upload := none, ping := none, timestamp := none }

/-- Positive-download interface with timestamp 100. -/
def wanTieA : WanData :=
  { interface_name := .str "eth8", wan_networkgroup := .str "WAN",
    download := some 10, upload := none, ping := none, timestamp := some 100 }

/-- Positive-download interface with timestamp 200. -/
def wanTieB : WanData :=
  { interface_name := .str "eth9", wan_networkgroup := .str "WAN",
    download := some 10, upload := none, ping := none, timestamp := some 200 }

/-- Equal-score dict whose tie is broken by the later timestamp. -/
def wanTieDict : WanDict := [("eth8_WAN", wanTieA), ("eth9_WAN", wanTieB)]

/-- C8's colliding payload: the pairs ("wan_A", "B") and ("wan", "A_B") are
distinct but share the concatenated key "wan_A_B". -/
def collidingPairsFetch : String → Except Unit Json := fun ep =>
  if ep = "/proxy/network/v2/api/site/default/speedtest" then
    .ok (.obj [("data", .arr
      [.obj [("interface_name", .str "wan_A"), ("wan_networkgroup", .str "B"),
             ("download_mbps", .num 1)],
       .obj [("interface_name", .str "wan"), ("wan_networkgroup", .str "A_B"),
             ("download_mbps", .num 2)]])])
  else .error ()

/-- Two records with the same (interface, group) pair. -/
def samePairFetch : String → Except Unit Json := fun ep =>
  if ep = "/proxy/network/v2/api/site/default/speedtest" then
    .ok (.obj [("data", .arr
      [.obj [("interface_name", .str "eth8"), ("wan_networkgroup", .str "WAN"),
             ("download_mbps", .num 1)],
       .obj [("interface_name", .str "eth8"), ("wan_networkgroup", .str "WAN"),
             ("download_mbps", .num 2)]])])
  else .error ()

/-!
## Supporting lemmas
-/

theorem mem_keys_updateAssoc {α : Type} (d : List (String × α)) (k k2 : String) (v : α)
    (h : k2 ∈ (updateAssoc d k v).map Prod.fst) : k2 ∈ d.map Prod.fst ∨ k2 = k := by
  induction d with
  | nil =>
    simp [updateAssoc] at h
    right; exact h
  | cons p rest ih =>
    obtain ⟨k', v'⟩ := p
    by_cases hk : k' = k
    · rw [updateAssoc, if_pos hk] at h
      simp only [List.map_cons, List.mem_cons] at h ⊢
      rcases h with h | h
      · right; exact h
      · left; right; exact h
    · rw [updateAssoc, if_neg hk] at h
      simp only [List.map_cons, List.mem_cons] at h ⊢
      rcases h with h | h
      · left; left; exact h
      · rcases ih h with h1 | h1
        · left; right; exact h1
        · right; exact h1

theorem updateAssoc_keys_nodup {α : Type} (d : List (String × α)) (k : String) (v : α)
    (h : (d.map Prod.fst).Nodup) : ((updateAssoc d k v).map Prod.fst).Nodup := by
  induction d with
  | nil => simp [updateAssoc]
  | cons p rest ih =>
    obtain ⟨k', v'⟩ := p
    simp only [List.map_cons, List.nodup_cons] at h
    by_cases hk : k' = k
    · simp only [updateAssoc, if_pos hk, List.map_cons, List.nodup_cons]
      exact ⟨by simpa [hk] using h.1, h.2⟩
    · simp only [updateAssoc, if_neg hk, List.map_cons, List.nodup_cons]
      refine ⟨fun hmem => ?_, ih h.2⟩
      rcases mem_keys_updateAssoc rest k k' v hmem with h1 | h1
      · exact h.1 h1
      · exact hk h1

/-!
## Claim theorems
-/

/-- Claim C2: after 3 consecutive login failures a cooldown opens whose duration is
between 5 and 30 minutes (it is 15 minutes: `min(30, 5*3)`): the deadline
equals the failing call's returned clock (the moment the failure is recorded,
which is not before the call's start) plus a duration `d` with
`300 ≤ d ≤ 1800` seconds; a `login()` call made before the deadline raises
the temporarily-disabled error immediately, with no network call and no state
change, independent of what the backend would have answered; any successful
login resets the failed-login counter and clears the cooldown. -/
theorem c2_login_cooldown :
    (∀ (st : ApiState) (now : ℚ) (e : DialectLoginError),
      st.failedLoginCount = 2 → isInLoginCooldown st now = false →
      ∃ d : ℚ,
        (login st now (.error e)).2.2.2 = .error (.attempt e) ∧
        now ≤ (login st now (.error e)).2.1 ∧
        (login st now (.error e)).1.loginCooldownUntil
            = some ((login st now (.error e)).2.1 + d) ∧
        300 ≤ d ∧ d ≤ 1800) ∧
    (∀ (st : ApiState) (now u : ℚ) (outcome : Except DialectLoginError Unit),
      st.loginCooldownUntil = some u → now < u →
      login st now outcome = (st, now, [], .error .cooldown)) ∧
    (∀ (st : ApiState) (now : ℚ),
      isInLoginCooldown st now = false →
      (login st now (.ok ())).1.failedLoginCount = 0 ∧
      (login st now (.ok ())).1.loginCooldownUntil = none) := by
  refine ⟨?_, ?_, ?_⟩
  · intro st now e h2 hc
    refine ⟨900, ?_, ?_, ?_, by norm_num, by norm_num⟩
    · simp [login, hc]
    · simp only [login, hc, Bool.false_eq_true, if_false, enforceRateLimit]
      cases st.lastRequestTime with
      | none => simp
      | some t =>
        simp only
        split
        · rename_i hlt
          linarith
        · simp
    · simp only [login, hc, Bool.false_eq_true, if_false, enforceRateLimit]
      simp [h2, maxFailedLogins]
      norm_num
  · intro st now u outcome hc hlt
    have : isInLoginCooldown st now = true := by
      simp [isInLoginCooldown, hc, hlt]
    simp [login, this]
  · intro st now hc
    simp [login, hc, enforceRateLimit]

/-- Claim C2 witness: the concrete third consecutive failure from a clean state two
failures deep, a blocked call during cooldown, and a successful reset. -/
theorem c2_login_cooldown_witness :
    (∃ d : ℚ,
      (login { failedLoginCount := 2 } 0 (.error ⟨false⟩)).2.2.2
          = .error (.attempt ⟨false⟩) ∧
      (0 : ℚ) ≤ (login { failedLoginCount := 2 } 0 (.error ⟨false⟩)).2.1 ∧
      (login { failedLoginCount := 2 } 0 (.error ⟨false⟩)).1.loginCooldownUntil
          = some ((login { failedLoginCount := 2 } 0 (.error ⟨false⟩)).2.1 + d) ∧
      300 ≤ d ∧ d ≤ 1800) ∧
    login { loginCooldownUntil := some 10 } 0 (.ok ())
        = ({ loginCooldownUntil := some 10 }, 0, [], .error .cooldown) ∧
    ((login ({} : ApiState) 0 (.ok ())).1.failedLoginCount = 0 ∧
      (login ({} : ApiState) 0 (.ok ())).1.loginCooldownUntil = none) :=
  ⟨c2_login_cooldown.1 { failedLoginCount := 2 } 0 ⟨false⟩ rfl rfl,
   c2_login_cooldown.2.1 { loginCooldownUntil := some 10 } 0 10 (.ok ()) rfl (by norm_num),
   c2_login_cooldown.2.2 {} 0 rfl⟩

/-- Claim C10: whenever the dialect-specific login attempt raises (the call was not
already blocked by the cooldown short-circuit), `login()` clears
`_last_login`, so `_is_login_valid` reports false at every later time — even
if the previous session was still inside its validity window. -/
theorem c10_failed_login_clears_session :
    ∀ (st : ApiState) (now : ℚ) (e : DialectLoginError),
      isInLoginCooldown st now = false →
      (login st now (.error e)).1.lastLogin = none ∧
      ∀ t : ℚ, isLoginValid (login st now (.error e)).1 t = false := by
  intro st now e hc
  simp [login, hc, enforceRateLimit, isLoginValid]

/-- Claim C10 witness: a state whose session is still valid at the failing call. -/
theorem c10_failed_login_clears_session_witness :
    isLoginValid { lastLogin := some 0 } 0 = true ∧
    (login { lastLogin := some 0 } 0 (.error ⟨false⟩)).1.lastLogin = none ∧
    ∀ t : ℚ, isLoginValid (login { lastLogin := some 0 } 0 (.error ⟨false⟩)).1 t = false :=
  ⟨by simp [isLoginValid, loginValidDuration],
   (c10_failed_login_clears_session { lastLogin := some 0 } 0 ⟨false⟩ rfl).1,
   (c10_failed_login_clears_session { lastLogin := some 0 } 0 ⟨false⟩ rfl).2⟩

/-- Claim C3 counterexample: with a backend answering 403, 403, 200 and retry
budget 2 (`max_retries=2`), the engine does return the success response and
the rejection counter does end at 0 — but the counter was cleared by the
successful re-login after each 403, so the 200-response reset branch is
skipped and the backoff duration ends at 45 seconds, not 0 as the claim
states. -/
theorem c3_counterexample :
    (makeRequest freshAuthedState 0 rejectTwiceResponses (fun _ => .ok ()) (fun _ => 1) 2).2.2.2
        = .ok 200 ∧
    (makeRequest freshAuthedState 0 rejectTwiceResponses (fun _ => .ok ()) (fun _ => 1) 2).1.consecutive403s
        = 0 ∧
    ¬ (makeRequest freshAuthedState 0 rejectTwiceResponses (fun _ => .ok ()) (fun _ => 1) 2).1.rateLimitBackoff
        = 0 := by
  norm_num [makeRequest, makeRequestLoop, login, enforceRateLimit, handleRateLimit,
    isLoginValid, isInLoginCooldown, freshAuthedState, rejectTwiceResponses,
    minRequestInterval, maxConsecutive403s, maxFailedLogins, loginValidDuration]

/-- Claim C3 amended: with a backend answering 403, 403, 200 and retry budget 2,
the engine returns the success response; afterwards the consecutive-rejection
counter equals 0 (reset by the successful re-login performed after each 403)
and the backoff duration equals 45 seconds (grown 30 → 45 by the second 403
and not reset by the 200, because the counter was already 0 when it
arrived). -/
theorem c3_amended_rejection_retry :
    (makeRequest freshAuthedState 0 rejectTwiceResponses (fun _ => .ok ()) (fun _ => 1) 2).2.2.2
        = .ok 200 ∧
    (makeRequest freshAuthedState 0 rejectTwiceResponses (fun _ => .ok ()) (fun _ => 1) 2).1.consecutive403s
        = 0 ∧
    (makeRequest freshAuthedState 0 rejectTwiceResponses (fun _ => .ok ()) (fun _ => 1) 2).1.rateLimitBackoff
        = 45 := by
  norm_num [makeRequest, makeRequestLoop, login, enforceRateLimit, handleRateLimit,
    isLoginValid, isInLoginCooldown, freshAuthedState, rejectTwiceResponses,
    minRequestInterval, maxConsecutive403s, maxFailedLogins, loginValidDuration]

/-- Claim C4 counterexample: a 204 response is success-class (2xx, passes
`raise_for_status`), yet with a non-zero rejection counter before the call,
the counter and the backoff are untouched afterwards — the reset branch fires
only on status exactly 200. -/
theorem c4_counterexample :
    (makeRequest rejectedOnceState 0 (fun _ => .status 204) (fun _ => .ok ()) (fun _ => 1) 2).2.2.2
        = .ok 204 ∧
    (makeRequest rejectedOnceState 0 (fun _ => .status 204) (fun _ => .ok ()) (fun _ => 1) 2).1.consecutive403s
        = 1 ∧
    (makeRequest rejectedOnceState 0 (fun _ => .status 204) (fun _ => .ok ()) (fun _ => 1) 2).1.rateLimitBackoff
        = 30 := by
  norm_num [makeRequest, makeRequestLoop, login, enforceRateLimit, handleRateLimit,
    isLoginValid, isInLoginCooldown, rejectedOnceState,
    minRequestInterval, maxConsecutive403s, maxFailedLogins, loginValidDuration]

/-- Claim C4 amended: for a response with status exactly 200 under a valid session,
a non-zero consecutive-rejection counter and the backoff duration are both
reset to zero; any other success-class (2xx–3xx, i.e. passing
`raise_for_status`) status returns the response with both values
unchanged. -/
theorem c4_amended_only_200_resets :
    (∀ (st : ApiState) (now : ℚ) (logins : Nat → Except DialectLoginError Unit)
        (jitters : Nat → ℚ) (mr : Nat),
      isLoginValid st now = true → 0 < st.consecutive403s →
      (makeRequest st now (fun _ => .status 200) logins jitters mr).2.2.2 = .ok 200 ∧
      (makeRequest st now (fun _ => .status 200) logins jitters mr).1.consecutive403s = 0 ∧
      (makeRequest st now (fun _ => .status 200) logins jitters mr).1.rateLimitBackoff = 0) ∧
    (∀ (st : ApiState) (now : ℚ) (logins : Nat → Except DialectLoginError Unit)
        (jitters : Nat → ℚ) (mr : Nat) (code : Nat),
      isLoginValid st now = true → code ≠ 200 → code < 400 →
      (makeRequest st now (fun _ => .status code) logins jitters mr).2.2.2 = .ok code ∧
      (makeRequest st now (fun _ => .status code) logins jitters mr).1.consecutive403s
          = st.consecutive403s ∧
      (makeRequest st now (fun _ => .status code) logins jitters mr).1.rateLimitBackoff
          = st.rateLimitBackoff) := by
  constructor
  · intro st now logins jitters mr h1 h2
    simp [makeRequest, makeRequestLoop, enforceRateLimit, h1, h2]
  · intro st now logins jitters mr code h1 h2 h3
    simp [makeRequest, makeRequestLoop, enforceRateLimit, h1, h2, h3]

/-- Claim C4 amended witness: the concrete 200 and 204 cases from the
rejected-once state. -/
theorem c4_amended_only_200_resets_witness :
    ((makeRequest rejectedOnceState 0 (fun _ => .status 200) (fun _ => .ok ()) (fun _ => 1) 2).2.2.2
        = .ok 200 ∧
     (makeRequest rejectedOnceState 0 (fun _ => .status 200) (fun _ => .ok ()) (fun _ => 1) 2).1.consecutive403s
        = 0 ∧
     (makeRequest rejectedOnceState 0 (fun _ => .status 200) (fun _ => .ok ()) (fun _ => 1) 2).1.rateLimitBackoff
        = 0) ∧
    ((makeRequest rejectedOnceState 0 (fun _ => .status 204) (fun _ => .ok ()) (fun _ => 1) 2).2.2.2
        = .ok 204 ∧
     (makeRequest rejectedOnceState 0 (fun _ => .status 204) (fun _ => .ok ()) (fun _ => 1) 2).1.consecutive403s
        = rejectedOnceState.consecutive403s ∧
     (makeRequest rejectedOnceState 0 (fun _ => .status 204) (fun _ => .ok ()) (fun _ => 1) 2).1.rateLimitBackoff
        = rejectedOnceState.rateLimitBackoff) :=
  ⟨c4_amended_only_200_resets.1 rejectedOnceState 0 (fun _ => .ok ()) (fun _ => 1) 2
      (by simp [isLoginValid, rejectedOnceState, loginValidDuration]) (by norm_num [rejectedOnceState]),
   c4_amended_only_200_resets.2 rejectedOnceState 0 (fun _ => .ok ()) (fun _ => 1) 2 204
      (by simp [isLoginValid, rejectedOnceState, loginValidDuration]) (by norm_num) (by norm_num)⟩

/-- Claim C7 counterexample: with a valid session, a 401 on the first attempt and
success on the second, the network calls happen at times 0 (first attempt),
5 (re-login POST, which is rate-limit enforced) and 7 (the retry, issued
after only the fixed 2-second pause with no `_enforce_rate_limit`): the last
two consecutive requests are 2 seconds apart, violating the claimed 5-second
global minimum for 401 retries. -/
theorem c7_counterexample :
    (makeRequest freshAuthedState 0 unauthorizedOnceResponses (fun _ => .ok ()) (fun _ => 1) 2).2.2.1
        = [("request", 0), ("login", 5), ("request", 7)] ∧
    ((7 : ℚ) - 5 < minRequestInterval) := by
  constructor
  · norm_num [makeRequest, makeRequestLoop, login, enforceRateLimit, handleRateLimit,
      isLoginValid, isInLoginCooldown, freshAuthedState, unauthorizedOnceResponses,
      minRequestInterval, maxConsecutive403s, maxFailedLogins, loginValidDuration]
  · norm_num [minRequestInterval]

/-- Claim C7 amended: the 5-second minimum inter-request interval is enforced by
`_enforce_rate_limit` wherever it is called — whenever a previous request
time is recorded, the next enforced call is issued at least 5 seconds after
it, and the call time is recorded — but a 401 retry is issued without
enforcement, only 2 seconds after the re-login POST, so consecutive requests
can be 2 seconds apart (concrete trace: calls at 0, 5 and 7). -/
theorem c7_amended_min_interval :
    (∀ (st : ApiState) (now t : ℚ), st.lastRequestTime = some t →
      minRequestInterval ≤ (enforceRateLimit st now).2 - t ∧
      (enforceRateLimit st now).1.lastRequestTime = some (enforceRateLimit st now).2) ∧
    (makeRequest freshAuthedState 0 unauthorizedOnceResponses (fun _ => .ok ()) (fun _ => 1) 2).2.2.1
        = [("request", 0), ("login", 5), ("request", 7)] := by
  constructor
  · intro st now t h
    simp only [enforceRateLimit, h]
    constructor
    · split
      · ring_nf
        linarith
      · linarith [not_lt.mp (by assumption : ¬ now - t < minRequestInterval)]
    · trivial
  · norm_num [makeRequest, makeRequestLoop, login, enforceRateLimit, handleRateLimit,
      isLoginValid, isInLoginCooldown, freshAuthedState, unauthorizedOnceResponses,
      minRequestInterval, maxConsecutive403s, maxFailedLogins, loginValidDuration]

/-- Claim C7 amended witness: the enforcement bound at a concrete state. -/
theorem c7_amended_min_interval_witness :
    minRequestInterval ≤ (enforceRateLimit { lastRequestTime := some 0 } 1).2 - 0 ∧
    (enforceRateLimit { lastRequestTime := some 0 } 1).1.lastRequestTime
        = some (enforceRateLimit { lastRequestTime := some 0 } 1).2 :=
  c7_amended_min_interval.1 { lastRequestTime := some 0 } 1 0 rfl

/-- Claim C9: saving a tracker and loading into a fresh instance reproduces every
counter and the failure-reason list truncated to its last 10 entries (and the
last failure reason); loading missing data, or stored data with every field
absent, leaves the fresh defaults (zero / empty). -/
theorem c9_tracker_save_load_roundtrip :
    (∀ t : SpeedTestTracker,
      (trackerLoad freshTracker (some (trackerSave t))).total_attempts = t.total_attempts ∧
      (trackerLoad freshTracker (some (trackerSave t))).successful_runs = t.successful_runs ∧
      (trackerLoad freshTracker (some (trackerSave t))).failed_runs = t.failed_runs ∧
      (trackerLoad freshTracker (some (trackerSave t))).automated_attempts = t.automated_attempts ∧
      (trackerLoad freshTracker (some (trackerSave t))).manual_attempts = t.manual_attempts ∧
      (trackerLoad freshTracker (some (trackerSave t))).automated_successes = t.automated_successes ∧
      (trackerLoad freshTracker (some (trackerSave t))).manual_successes = t.manual_successes ∧
      (trackerLoad freshTracker (some (trackerSave t))).automated_failures = t.automated_failures ∧
      (trackerLoad freshTracker (some (trackerSave t))).manual_failures = t.manual_failures ∧
      (trackerLoad freshTracker (some (trackerSave t))).failure_reasons
          = lastTen t.failure_reasons ∧
      (trackerLoad freshTracker (some (trackerSave t))).last_failure_reason
          = t.last_failure_reason) ∧
    trackerLoad freshTracker none = freshTracker ∧
    trackerLoad freshTracker (some {}) = freshTracker ∧
    trackerLoad freshTracker (some { total_attempts := some 7 })
      = { freshTracker with total_attempts := 7 } := by
  refine ⟨fun t => ?_, rfl, rfl, rfl⟩
  simp [trackerLoad, trackerSave]

/-- All candidate-endpoint scans come back empty when every fetch fails. -/
theorem findSome_allFail {β : Type} (fetch : String → Except Unit Json)
    (hf : ∀ ep, fetch ep = .error ()) (g : String → Json → Option β) :
    ∀ eps : List String,
      (eps.findSome? fun ep =>
        match fetch ep with
        | .error _ => none
        | .ok j => g ep j) = none := by
  intro eps
  induction eps with
  | nil => rfl
  | cons e rest ih => simp [List.findSome?_cons, hf e, ih]

/-- The multi-WAN endpoint scan adds nothing when every fetch fails. -/
theorem mwScan_allFail (fetch : String → Except Unit Json)
    (pick : String → WanDict → List Json → Except WanDict WanDict)
    (hf : ∀ ep, fetch ep = .error ()) :
    ∀ (eps : List String) (d : WanDict), mwScan fetch pick d eps = d := by
  intro eps
  induction eps with
  | nil => intro d; rfl
  | cons e rest ih => intro d; simp [mwScan, hf e, ih]

/-- Claim C1: `get_speed_test_status()` is total over every backend behaviour (each
raise site is modeled in the `fetch` oracle and caught endpoint-by-endpoint),
its result always has the shape selected by the multi-WAN flag, and when the
backend fails every request (any HTTP error, network failure or malformed
payload), the result is the all-fields-absent one: `{download: None, upload:
None, ping: None}` in legacy mode, or empty `wan_interfaces`, zero
`total_interfaces` and no `primary_wan` in multi-WAN mode. -/
theorem c1_get_speed_test_status_degrades :
    ∀ (controllerType site : String) (mw : Bool) (c403 : Nat)
      (fetch : String → Except Unit Json),
      resultShapeMatches mw (getSpeedTestStatus controllerType mw c403 site fetch) ∧
      ((∀ ep, fetch ep = .error ()) →
        fieldsAbsent (getSpeedTestStatus controllerType mw c403 site fetch)) := by
  intro ct site mw c fetch
  constructor
  · by_cases h1 : maxConsecutive403s < c <;>
      cases mw <;>
        simp [getSpeedTestStatus, h1, resultShapeMatches]
  · intro hf
    by_cases h1 : maxConsecutive403s < c
    · cases mw <;>
        simp [getSpeedTestStatus, h1, fieldsAbsent, emptyLegacy, emptyMultiWan]
    · cases mw
      · by_cases hct : ct = "udm" <;>
          simp [getSpeedTestStatus, h1, hct, fieldsAbsent,
            getSpeedTestStatusUdm, getSpeedTestStatusController,
            findSome_allFail fetch hf, emptyLegacy]
      · by_cases hct : ct = "udm" <;>
          simp [getSpeedTestStatus, h1, hct, fieldsAbsent,
            getSpeedTestStatusUdmMultiWan, getSpeedTestStatusControllerMultiWan,
            mwScan_allFail _ _ hf]

/-- Claim C1 witness: the multi-WAN UDM configuration against a backend that fails
every request. -/
theorem c1_get_speed_test_status_degrades_witness :
    resultShapeMatches true
      (getSpeedTestStatus "udm" true 0 "default" (fun _ => .error ())) ∧
    fieldsAbsent (getSpeedTestStatus "udm" true 0 "default" (fun _ => .error ())) :=
  ⟨(c1_get_speed_test_status_degrades "udm" "default" true 0 (fun _ => .error ())).1,
   (c1_get_speed_test_status_degrades "udm" "default" true 0 (fun _ => .error ())).2
     (fun _ => rfl)⟩

/-- Claim C5: legacy UDM normalization of a history-style payload takes the last
entry of the non-empty `data` array (for any earlier entries and any numeric
measurements), and on the claim's concrete payload returns download 90,
upload 20, ping 3.  (The backend serves the payload on the v2 speedtest
endpoint; the health endpoint — tried first — fails, as it carries no `www`
subsystem for such payloads.) -/
theorem c5_legacy_history_last_entry :
    (∀ (init : List Json) (d u p : ℚ),
      getSpeedTestStatusUdm "default" (historyFetch (init ++ [historyEntry d u p]))
        = { download := some d, upload := some u, ping := some p, status := none }) ∧
    getSpeedTestStatusUdm "default"
        (historyFetch [historyEntry 50 10 5, historyEntry 90 20 3])
      = { download := some 90, upload := some 20, ping := some 3, status := none } := by
  have main : ∀ (init : List Json) (d u p : ℚ),
      getSpeedTestStatusUdm "default" (historyFetch (init ++ [historyEntry d u p]))
        = { download := some d, upload := some u, ping := some p, status := none } := by
    intro init d u p
    simp [getSpeedTestStatusUdm, udmLegacyEndpoints, historyFetch, List.findSome?_cons,
      udmLegacyFromEndpoint, dataField, jsonLookup, isSpeedtestStyleUdm, strContains,
      startsList, containsList, List.getLast?_concat, historyEntry, chainGet,
      safeFloat, pyFloat]
  refine ⟨main, ?_⟩
  simpa using main [historyEntry 50 10 5] 90 20 3

/-- Claim C8 counterexample: the records with distinct (interface, group) pairs
("wan_A", "B") and ("wan", "A_B") concatenate to the same key "wan_A_B", so
the second overwrites the first and the returned `wan_interfaces` holds a
single entry — not the two distinct entries the claim requires. -/
theorem c8_counterexample :
    (("wan_A", "B") : String × String) ≠ ("wan", "A_B") ∧
    (getSpeedTestStatusUdmMultiWan "default" collidingPairsFetch).total_interfaces = 1 ∧
    (getSpeedTestStatusUdmMultiWan "default" collidingPairsFetch).wan_interfaces.map
        (fun w => (pyStr w.interface_name, pyStr w.wan_networkgroup))
      = [("wan", "A_B")] := by
  refine ⟨by decide, by decide, by decide⟩

theorem mem_updateAssoc {α : Type} (d : List (String × α)) (k : String) (v : α)
    (p : String × α) (h : p ∈ updateAssoc d k v) : p ∈ d ∨ p = (k, v) := by
  induction d with
  | nil =>
    simp [updateAssoc] at h
    right; exact h
  | cons q rest ih =>
    obtain ⟨k', v'⟩ := q
    by_cases hk : k' = k
    · rw [updateAssoc, if_pos hk] at h
      rcases List.mem_cons.1 h with h1 | h1
      · right; exact h1
      · left; exact List.mem_cons_of_mem _ h1
    · rw [updateAssoc, if_neg hk] at h
      rcases List.mem_cons.1 h with h1 | h1
      · left; exact h1 ▸ List.mem_cons_self _ _
      · rcases ih h1 with h2 | h2
        · left; exact List.mem_cons_of_mem _ h2
        · right; exact h2

theorem wanDictInv_updateAssoc (d : WanDict) (v : WanData) (h : WanDictInv d) :
    WanDictInv (updateAssoc d (wanKeyOf v) v) := by
  refine ⟨updateAssoc_keys_nodup d (wanKeyOf v) v h.1, fun p hp => ?_⟩
  rcases mem_updateAssoc d (wanKeyOf v) v p hp with h1 | h1
  · exact h.2 p h1
  · subst h1; rfl

theorem wanDictInv_updateAssoc' (d : WanDict) (k : String) (v : WanData)
    (hk : k = wanKeyOf v) (h : WanDictInv d) : WanDictInv (updateAssoc d k v) :=
  hk ▸ wanDictInv_updateAssoc d v h

theorem wanDictInv_udmMwSpeedtestEntry (d : WanDict) (e : Json) (h : WanDictInv d) :
    WanDictInv (exDict (udmMwSpeedtestEntry d e)) := by
  cases e with
  | obj kvs =>
    simp only [udmMwSpeedtestEntry]
    split
    · exact wanDictInv_updateAssoc' d _ _ rfl h
    · exact h
  | null => exact h
  | bool b => exact h
  | num q => exact h
  | str s => exact h
  | arr xs => exact h

theorem wanDictInv_udmMwHealthEntry (d : WanDict) (e : Json) (h : WanDictInv d) :
    WanDictInv (exDict (udmMwHealthEntry d e)) := by
  cases e with
  | obj kvs =>
    simp only [udmMwHealthEntry]
    split
    · split
      · exact wanDictInv_updateAssoc' d _ _ rfl h
      · exact h
    · exact h
  | null => exact h
  | bool b => exact h
  | num q => exact h
  | str s => exact h
  | arr xs => exact h

theorem wanDictInv_controllerMwSpeedtestEntry (d : WanDict) (e : Json) (h : WanDictInv d) :
    WanDictInv (exDict (controllerMwSpeedtestEntry d e)) := by
  cases e with
  | obj kvs =>
    simp only [controllerMwSpeedtestEntry]
    split
    · exact wanDictInv_updateAssoc' d _ _ rfl h
    · exact h
  | null => exact h
  | bool b => exact h
  | num q => exact h
  | str s => exact h
  | arr xs => exact h

theorem wanDictInv_controllerMwHealthEntry (d : WanDict) (e : Json) (h : WanDictInv d) :
    WanDictInv (exDict (controllerMwHealthEntry d e)) := by
  cases e with
  | obj kvs =>
    simp only [controllerMwHealthEntry]
    split
    · split
      · exact wanDictInv_updateAssoc' d _ _ rfl h
      · exact h
    · exact h
  | null => exact h
  | bool b => exact h
  | num q => exact h
  | str s => exact h
  | arr xs => exact h

theorem wanDictInv_foldEntries (f : WanDict → Json → Except WanDict WanDict)
    (hf : ∀ d e, WanDictInv d → WanDictInv (exDict (f d e))) :
    ∀ (l : List Json) (d : WanDict), WanDictInv d → WanDictInv (exDict (foldEntries f d l)) := by
  intro l
  induction l with
  | nil => intro d h; exact h
  | cons e rest ih =>
    intro d h
    rw [foldEntries]
    rcases hfe : f d e with d' | d'
    · have := hf d e h
      rw [hfe] at this
      exact this
    · have := hf d e h
      rw [hfe] at this
      exact ih d' this

theorem wanDictInv_mwScan (fetch : String → Except Unit Json)
    (pick : String → WanDict → List Json → Except WanDict WanDict)
    (hp : ∀ ep d l, WanDictInv d → WanDictInv (exDict (pick ep d l))) :
    ∀ (eps : List String) (d : WanDict), WanDictInv d →
      WanDictInv (mwScan fetch pick d eps) := by
  intro eps
  induction eps with
  | nil => intro d h; exact h
  | cons ep rest ih =>
    intro d h
    rw [mwScan]
    split
    · exact ih d h
    · split
      · exact ih d h
      · split
        · rename_i l hdf xp d' hpe
          have hinv := hp ep d l h
          rw [hpe] at hinv
          exact ih d' hinv
        · rename_i l hdf xp d' hpe
          have hinv := hp ep d l h
          rw [hpe] at hinv
          split
          · exact ih d' hinv
          · exact hinv

theorem wanDictInv_udmMwPick :
    ∀ ep d l, WanDictInv d → WanDictInv (exDict (udmMwPick ep d l)) := by
  intro ep d l h
  rw [udmMwPick]
  split
  · exact wanDictInv_foldEntries _ wanDictInv_udmMwSpeedtestEntry l d h
  · exact wanDictInv_foldEntries _ wanDictInv_udmMwHealthEntry l d h

theorem wanDictInv_controllerMwPick :
    ∀ ep d l, WanDictInv d → WanDictInv (exDict (controllerMwPick ep d l)) := by
  intro ep d l h
  rw [controllerMwPick]
  split
  · exact wanDictInv_foldEntries _ wanDictInv_controllerMwSpeedtestEntry l d h
  · exact wanDictInv_foldEntries _ wanDictInv_controllerMwHealthEntry l d h

/-- Claim C8 amended: the detected WAN records are keyed by the concatenated string
`f"{interface_name}_{wan_group}"`.  Within one poll the returned
`wan_interfaces` list never holds two records with the same concatenated key
(collisions overwrite in place rather than duplicate — concretely, two
records with the identical pair ("eth8", "WAN") leave one entry carrying the
second record's values); but distinct (interface, group) pairs are kept
distinct only up to that string, and pairs whose concatenations coincide
collapse into one entry (see the counterexample). -/
theorem c8_amended_string_key_uniqueness :
    (∀ (site : String) (fetch : String → Except Unit Json),
      (((getSpeedTestStatusUdmMultiWan site fetch).wan_interfaces).map wanKeyOf).Nodup) ∧
    (∀ (site : String) (fetch : String → Except Unit Json),
      (((getSpeedTestStatusControllerMultiWan site fetch).wan_interfaces).map wanKeyOf).Nodup) ∧
    (getSpeedTestStatusUdmMultiWan "default" samePairFetch).wan_interfaces.map
        (fun w => (pyStr w.interface_name, pyStr w.wan_networkgroup, w.download))
      = [("eth8", "WAN", some 2)] ∧
    (getSpeedTestStatusUdmMultiWan "default" collidingPairsFetch).wan_interfaces.map wanKeyOf
      = ["wan_A_B"] := by
  have base : WanDictInv [] := ⟨List.nodup_nil, by simp⟩
  refine ⟨fun site fetch => ?_, fun site fetch => ?_, by decide, by decide⟩
  · have inv := wanDictInv_mwScan fetch udmMwPick wanDictInv_udmMwPick
      (udmMwEndpoints site) [] base
    simp only [getSpeedTestStatusUdmMultiWan, List.map_map]
    have heq : (mwScan fetch udmMwPick [] (udmMwEndpoints site)).map (wanKeyOf ∘ (·.2))
        = (mwScan fetch udmMwPick [] (udmMwEndpoints site)).map Prod.fst :=
      List.map_congr_left fun p hp => (inv.2 p hp).symm
    rw [heq]
    exact inv.1
  · have inv := wanDictInv_mwScan fetch controllerMwPick wanDictInv_controllerMwPick
      (controllerMwEndpoints site) [] base
    simp only [getSpeedTestStatusControllerMultiWan, List.map_map]
    have heq : (mwScan fetch controllerMwPick [] (controllerMwEndpoints site)).map
          (wanKeyOf ∘ (·.2))
        = (mwScan fetch controllerMwPick [] (controllerMwEndpoints site)).map Prod.fst :=
      List.map_congr_left fun p hp => (inv.2 p hp).symm
    rw [heq]
    exact inv.1

/-- Claim C6 counterexample: a non-empty set of detected WAN interfaces whose only
member has no positive throughput and no timestamp (score 0).  The claim
requires the scoring layer to return the interface with the highest score —
here necessarily "wan1_WAN" — but the layer only considers interfaces with a
positive score and returns no answer. -/
theorem c6_counterexample :
    ([("wan1_WAN", wanNoData)] : WanDict) ≠ [] ∧
    findPrimaryFromSpeedtestData [("wan1_WAN", wanNoData)] = none :=
  ⟨by simp, by decide⟩

/-- The first element of an insertion-sorted list is `r`-related to every
element of the original list. -/
theorem insertionSort_head_max {α : Type} (r : α → α → Prop) [DecidableRel r]
    [IsTotal α r] [IsTrans α r] (l : List α) (h : α)
    (hh : (List.insertionSort r l).head? = some h) : ∀ y ∈ l, r h y := by
  intro y hy
  have hy' : y ∈ List.insertionSort r l := (List.mem_insertionSort r).2 hy
  have hsorted := List.sorted_insertionSort r l
  cases hs : List.insertionSort r l with
  | nil =>
    rw [hs] at hy'
    cases hy'
  | cons a as =>
    rw [hs] at hh hy' hsorted
    injection hh with hh
    subst hh
    rcases List.mem_cons.1 hy' with rfl | hmem
    · rcases IsTotal.total (r := r) y y with ht | ht <;> exact ht
    · exact (List.sorted_cons.1 hsorted).1 y hmem

/-- Claim C6 amended: the scoring layer gives +10 for a positive download, +10 for
a positive upload and +5 for a truthy timestamp (`wanScore`), but only
interfaces with a positive score compete: the layer answers nothing iff every
interface scores 0, and otherwise returns an interface of maximal score,
ties broken by the later timestamp (an absent timestamp compares as 0, and
remaining ties go to the earlier-detected interface).  Concretely: for the
claim's health payload both wan2 and www have positive download, the scores
tie at 10 and the first-detected "wan2" (key "wan2_WAN2") wins; with www's
throughput zeroed, wan2 wins as the only positive scorer; with equal scores
and distinct timestamps, the later timestamp wins. -/
theorem c6_amended_scoring_layer :
    (∀ wd : WanDict,
      (findPrimaryFromSpeedtestData wd = none ↔ ∀ p ∈ wd, wanScore p.2 = 0)) ∧
    (∀ (wd : WanDict) (k : String),
      findPrimaryFromSpeedtestData wd = some k →
      ∃ w, (k, w) ∈ wd ∧ 0 < wanScore w ∧
        ∀ p ∈ wd, 0 < wanScore p.2 →
          (wanScore p.2 < wanScore w ∨
            (wanScore p.2 = wanScore w ∧
              p.2.timestamp.getD 0 ≤ w.timestamp.getD 0))) ∧
    (getSpeedTestStatusUdmMultiWan "default" healthFetchBothPositive).primary_wan
        = some "wan2_WAN2" ∧
    (getSpeedTestStatusUdmMultiWan "default" healthFetchWwwZero).primary_wan
        = some "wan2_WAN2" ∧
    (getSpeedTestStatusUdmMultiWan "default" historyFetchTie).primary_wan
        = some "eth9_WAN" := by
  refine ⟨?_, ?_, by decide, by decide, by decide⟩
  · intro wd
    unfold findPrimaryFromSpeedtestData
    constructor
    · intro hnone p hp
      rw [Option.map_eq_none', List.head?_eq_none_iff, ← List.length_eq_zero,
        List.length_insertionSort, List.length_eq_zero,
        List.filterMap_eq_nil_iff] at hnone
      have := hnone p hp
      by_cases hs : 0 < wanScore p.2
      · rw [if_pos hs] at this
        cases this
      · omega
    · intro hall
      rw [Option.map_eq_none', List.head?_eq_none_iff, ← List.length_eq_zero,
        List.length_insertionSort, List.length_eq_zero, List.filterMap_eq_nil_iff]
      intro p hp
      rw [if_neg]
      rw [hall p hp]
      omega
  · intro wd k hk
    unfold findPrimaryFromSpeedtestData at hk
    rcases Option.map_eq_some'.1 hk with ⟨trip, htrip, htk⟩
    have htmem : trip ∈ wd.filterMap fun p =>
        let s := wanScore p.2
        if 0 < s then some (p.1, s, p.2.timestamp) else none := by
      apply (List.mem_insertionSort scoreRel).1
      cases hs : List.insertionSort scoreRel (wd.filterMap fun p =>
          let s := wanScore p.2
          if 0 < s then some (p.1, s, p.2.timestamp) else none) with
      | nil => rw [hs] at htrip; cases htrip
      | cons a as =>
        rw [hs] at htrip
        injection htrip with htrip
        rw [← htrip]
        exact List.mem_cons_self a as
    rcases List.mem_filterMap.1 htmem with ⟨p, hpmem, hpf⟩
    simp only at hpf
    by_cases hs : 0 < wanScore p.2
    · rw [if_pos hs] at hpf
      injection hpf with hpf
      refine ⟨p.2, ?_, hs, ?_⟩
      · have hk1 : k = p.1 := by rw [← htk, ← hpf]
        rw [hk1]
        exact hpmem
      · intro q hq hqs
        have hqmem : (q.1, wanScore q.2, q.2.timestamp) ∈ wd.filterMap fun p =>
            let s := wanScore p.2
            if 0 < s then some (p.1, s, p.2.timestamp) else none :=
          List.mem_filterMap.2 ⟨q, hq, by simp only; rw [if_pos hqs]⟩
        have hrel := insertionSort_head_max scoreRel _ trip htrip _ hqmem
        rw [← hpf] at hrel
        simpa [scoreRel] using hrel
    · rw [if_neg hs] at hpf
      cases hpf

/-- Claim C6 amended witness: the maximality consequence at the concrete
tie-broken dict. -/
theorem c6_amended_scoring_layer_witness :
    ∃ w, ("eth9_WAN", w) ∈ wanTieDict ∧ 0 < wanScore w ∧
      ∀ p ∈ wanTieDict, 0 < wanScore p.2 →
        (wanScore p.2 < wanScore w ∨
          (wanScore p.2 = wanScore w ∧
            p.2.timestamp.getD 0 ≤ w.timestamp.getD 0)) :=
  c6_amended_scoring_layer.2.1 wanTieDict "eth9_WAN" (by decide)

end HAUnifiSpeedtest
